import Mathlib

/-!
# ctkPluginContext: validity checks, delegation and failure behaviour

A shallow embedding of `Libs/PluginFramework/ctkPluginContext.cpp`.

* A pointer is an `Option`; `none` is the null pointer.
* An exception is an `Except` error; the framework context reached through
  `d->plugin->fwCtx` is passed explicitly as a state of type `σ`.
* The classes the file only calls into (the plugin table, the service registry,
  the listener object, the service reference's private part, `QObject::connect`,
  `QDir`) are not part of the sources.  Their entry points are the fields of
  `Collaborators`; every statement below that quantifies over `K` holds for all
  of them.
* Every call into such an entry point is recorded, in order, in `Outcome.calls`.
-/

set_option autoImplicit false

namespace CTK

/-! ## Values -/

abbrev QString := String

abbrev QStringList := List QString

abbrev QUrl := String

/-- A `QVariant`; the default-constructed one is `invalid` (empty). -/
inductive QVariant where
  | invalid
  | value (text : String)
  deriving DecidableEq, Repr

/-- A `QHash<QString, QVariant>` as the list of its entries. -/
abbrev QHash := List (QString × QVariant)

abbrev ServiceProperties := QHash

/-- The function `QHash::value(key)`: the value stored under `key`, or a
default-constructed value when the hash has no such key. -/
def QHash.value : QHash → QString → QVariant
  | [], _ => QVariant.invalid
  | (k, v) :: rest, key => if k = key then v else QHash.value rest key

/-- A `QObject*`: the identity of the object pointed to, `none` for null. -/
abbrev QObjectPtr := Option Nat

/-- A `QIODevice*`. -/
abbrev QIODevicePtr := Option Nat

/-- The enumeration `Qt::ConnectionType`.  `other` stands for every value that is
none of the named enumerators (for instance a mode or-ed with a flag). -/
inductive ConnectionType where
  | AutoConnection
  | DirectConnection
  | QueuedConnection
  | AutoCompatConnection
  | BlockingQueuedConnection
  | UniqueConnection
  | other (raw : Nat)
  deriving DecidableEq, Repr

/-- The signals of `fwCtx->listeners` named in `SIGNAL(...)`. -/
inductive Signal where
  | pluginChangedDirect
  | pluginChangedQueued
  | frameworkEvent
  deriving DecidableEq, Repr

/-- The public handle `QSharedPointer<ctkPlugin>` of a plugin. -/
structure ctkPlugin where
  id : Int
  deriving DecidableEq, Repr

/-- The part of `ctkPluginPrivate` the context reads: `q_func()` and the plugin's
private data root.  Its `fwCtx` is the one framework context, passed as the state. -/
structure ctkPluginPrivate where
  q : ctkPlugin
  dataRoot : QString
  deriving DecidableEq, Repr

/-- A `ctkServiceReference`: the registration its private part points to, `none`
for a default-constructed reference. -/
structure ctkServiceReference where
  registration : Option Nat
  deriving DecidableEq, Repr

/-- Modelled from the spec: the boolean conversion of `ctkServiceReference`
(`ctkServiceReference.h` is not part of the sources).  "Default-constructed
references are invalid": `!reference` holds exactly for those. -/
def ctkServiceReference.isNull (reference : ctkServiceReference) : Bool :=
  reference.registration.isNone

/-- A `ctkServiceRegistration` handle. -/
structure ctkServiceRegistration where
  plugin : ctkPlugin
  clazzes : QStringList
  service : QObjectPtr
  properties : ServiceProperties
  serviceId : Nat
  ranking : Int
  deriving DecidableEq, Repr

/-- A `QFileInfo(dir, file)`: the two constructor arguments. -/
structure QFileInfo where
  dir : QString
  file : QString
  deriving DecidableEq, Repr

/-! ## Failures -/

/-- How a call ends without a value.
* `logic_error`: the `std::logic_error` thrown by `isPluginContextValid`
  ("This plugin context is no longer valid");
* `invalid_argument`: a `std::invalid_argument`;
* `nullDereference`: a null pointer was dereferenced; the call has no defined
  result and throws nothing;
* `other`: any other exception of a collaborator (install, filter syntax). -/
inductive Failure where
  | logic_error
  | invalid_argument
  | nullDereference
  | other (kind : Nat)
  deriving DecidableEq, Repr

/-- The failure is the invalid-context or the invalid-argument error. -/
def Failure.isValidityOrArgument : Failure → Bool
  | Failure.logic_error => true
  | Failure.invalid_argument => true
  | _ => false

/-! ## Calls into the collaborators -/

/-- One call from `ctkPluginContext.cpp` into a class outside of it. -/
inductive Delegation where
  | getPlugin (id : Int)
  | getPlugins
  | install (location : QUrl) (input : QIODevicePtr)
  | dirExists (path : QString)
  | mkpath (path : QString)
  | qWarning (path : QString)
  | registerService (plugin : ctkPluginPrivate) (clazzes : QStringList)
      (service : QObjectPtr) (properties : ServiceProperties)
  | getReferences (clazz filter : QString)
  | getReference (plugin : ctkPluginPrivate) (clazz : QString)
  | referenceGetService (reference : ctkServiceReference) (plugin : ctkPlugin)
  | referenceUngetService (reference : ctkServiceReference) (plugin : ctkPlugin)
  | connect (signal : Signal) (receiver : Nat) (method : QString) (type : ConnectionType)
  | addServiceSlot (plugin : ctkPlugin) (receiver : QObjectPtr) (slot filter : QString)
  | removeServiceSlot (plugin : ctkPlugin) (receiver : QObjectPtr) (slot : QString)
  deriving DecidableEq, Repr

/-- The entry points of the classes `ctkPluginContext.cpp` calls into, over a
framework context of type `σ`.  Each takes the framework context first and
returns the framework context after the call when it can change it. -/
structure Collaborators (σ : Type) where
  /-- The member `fwCtx->props`. -/
  props : σ → QHash
  /-- The call `fwCtx->plugins->getPlugin(id)`; `none` is the null handle. -/
  getPlugin : σ → Int → Option ctkPlugin
  /-- The call `fwCtx->plugins->getPlugins()`. -/
  getPlugins : σ → List ctkPlugin
  /-- The call `fwCtx->plugins->install(location, in)`. -/
  install : σ → QUrl → QIODevicePtr → Except Failure ctkPlugin × σ
  /-- The path `plugin->getDataRoot().absolutePath()`. -/
  getDataRoot : σ → ctkPluginPrivate → QString
  /-- The call `QDir::exists()`. -/
  dirExists : σ → QString → Bool
  /-- The call `QDir::mkpath(path)`. -/
  mkpath : σ → QString → Bool × σ
  /-- The call `fwCtx->services->registerService(plugin, clazzes, service, properties)`. -/
  registerService : σ → ctkPluginPrivate → QStringList → QObjectPtr → ServiceProperties →
    Except Failure ctkServiceRegistration × σ
  /-- The call `fwCtx->services->get(clazz, filter, 0)`. -/
  getReferences : σ → QString → QString → Except Failure (List ctkServiceReference) × σ
  /-- The call `fwCtx->services->get(plugin, clazz)`. -/
  getReference : σ → ctkPluginPrivate → QString → Except Failure ctkServiceReference × σ
  /-- The call `reference.d_func()->getService(plugin)`. -/
  referenceGetService : σ → ctkServiceReference → ctkPlugin → QObjectPtr × σ
  /-- The call `ref.d_func()->ungetService(plugin, true)`. -/
  referenceUngetService : σ → ctkServiceReference → ctkPlugin → Bool × σ
  /-- The call `receiver->connect(&fwCtx->listeners, SIGNAL(signal), method, type)`. -/
  connect : σ → Signal → Nat → QString → ConnectionType → Bool × σ
  /-- The call `fwCtx->listeners.addServiceSlot(plugin, receiver, slot, filter)`. -/
  addServiceSlot : σ → ctkPlugin → QObjectPtr → QString → QString → Except Failure Unit × σ
  /-- The call `fwCtx->listeners.removeServiceSlot(plugin, receiver, slot)`. -/
  removeServiceSlot : σ → ctkPlugin → QObjectPtr → QString → Except Failure Unit × σ

/-! ## The private part of the context -/

/-- The class `ctkPluginContextPrivate`: the back-reference to the owning plugin. -/
structure ctkPluginContextPrivate where
  plugin : Option ctkPluginPrivate
  deriving DecidableEq, Repr

/-- The method `ctkPluginContextPrivate::isPluginContextValid`. -/
def ctkPluginContextPrivate.isPluginContextValid (d : ctkPluginContextPrivate) :
    Except Failure Unit :=
  match d.plugin with
  | none => Except.error Failure.logic_error
  | some _ => Except.ok ()

/-- The method `ctkPluginContextPrivate::invalidate`. -/
def ctkPluginContextPrivate.invalidate (_d : ctkPluginContextPrivate) :
    ctkPluginContextPrivate :=
  ⟨none⟩

/-- The constructor `ctkPluginContext::ctkPluginContext(plugin)`. -/
def ctkPluginContext.create (plugin : Option ctkPluginPrivate) : ctkPluginContextPrivate :=
  ⟨plugin⟩

/-! ## Outcomes -/

/-- What a call on a context leaves behind: its result, the private part of the
context, the framework context, and the calls it made into the collaborators. -/
structure Outcome (σ α : Type) where
  result : Except Failure α
  d : ctkPluginContextPrivate
  fwCtx : σ
  calls : List Delegation

/-- The call ends with failure `e` before anything else happens. -/
def Outcome.raise {σ α : Type} (e : Failure) (d : ctkPluginContextPrivate) (s : σ) :
    Outcome σ α :=
  ⟨Except.error e, d, s, []⟩

/-- The statement `d->isPluginContextValid();` followed by `rest`. -/
def checked {σ α : Type} (d : ctkPluginContextPrivate) (s : σ) (rest : Outcome σ α) :
    Outcome σ α :=
  match d.isPluginContextValid with
  | Except.error e => Outcome.raise e d s
  | Except.ok _ => rest

/-- The dereference `d->plugin->...`: `rest` runs on the plugin pointed to. -/
def withPlugin {σ α : Type} (d : ctkPluginContextPrivate) (s : σ)
    (rest : ctkPluginPrivate → Outcome σ α) : Outcome σ α :=
  match d.plugin with
  | none => Outcome.raise Failure.nullDereference d s
  | some p => rest p

/-- The outcome with its value forgotten. -/
def Outcome.void {σ α : Type} (o : Outcome σ α) : Outcome σ Unit :=
  ⟨match o.result with
    | Except.error e => Except.error e
    | Except.ok _ => Except.ok (),
   o.d, o.fwCtx, o.calls⟩

/-! ## The public operations of `ctkPluginContext` -/

namespace ctkPluginContext

variable {σ : Type}

/-- The method `ctkPluginContext::getProperty`. -/
def getProperty (K : Collaborators σ) (d : ctkPluginContextPrivate) (key : QString) (s : σ) :
    Outcome σ QVariant :=
  checked d s <| withPlugin d s fun _ =>
    ⟨Except.ok (QHash.value (K.props s) key), d, s, []⟩

/-- The method `ctkPluginContext::getPlugin()`. -/
def getPlugin (d : ctkPluginContextPrivate) (s : σ) : Outcome σ ctkPlugin :=
  checked d s <| withPlugin d s fun p =>
    ⟨Except.ok p.q, d, s, []⟩

/-- The method `ctkPluginContext::getPlugin(long id)`.  There is no call of
`isPluginContextValid` in its body. -/
def getPlugin_id (K : Collaborators σ) (d : ctkPluginContextPrivate) (id : Int) (s : σ) :
    Outcome σ (Option ctkPlugin) :=
  withPlugin d s fun _ =>
    ⟨Except.ok (K.getPlugin s id), d, s, [Delegation.getPlugin id]⟩

/-- The method `ctkPluginContext::getPlugins`. -/
def getPlugins (K : Collaborators σ) (d : ctkPluginContextPrivate) (s : σ) :
    Outcome σ (List ctkPlugin) :=
  checked d s <| withPlugin d s fun _ =>
    ⟨Except.ok (K.getPlugins s), d, s, [Delegation.getPlugins]⟩

/-- The method `ctkPluginContext::installPlugin`. -/
def installPlugin (K : Collaborators σ) (d : ctkPluginContextPrivate) (location : QUrl)
    (input : QIODevicePtr) (s : σ) : Outcome σ ctkPlugin :=
  checked d s <| withPlugin d s fun _ =>
    ⟨(K.install s location input).1, d, (K.install s location input).2,
      [Delegation.install location input]⟩

/-- The method `ctkPluginContext::getDataFile`. -/
def getDataFile (K : Collaborators σ) (d : ctkPluginContextPrivate) (filename : QString)
    (s : σ) : Outcome σ QFileInfo :=
  checked d s <| withPlugin d s fun p =>
    let dataRoot := K.getDataRoot s p
    if !K.dirExists s dataRoot then
      if !(K.mkpath s dataRoot).1 then
        ⟨Except.ok ⟨dataRoot, filename⟩, d, (K.mkpath s dataRoot).2,
          [Delegation.dirExists dataRoot, Delegation.mkpath dataRoot,
           Delegation.qWarning dataRoot]⟩
      else
        ⟨Except.ok ⟨dataRoot, filename⟩, d, (K.mkpath s dataRoot).2,
          [Delegation.dirExists dataRoot, Delegation.mkpath dataRoot]⟩
    else
      ⟨Except.ok ⟨dataRoot, filename⟩, d, s, [Delegation.dirExists dataRoot]⟩

/-- The method `ctkPluginContext::registerService(const QStringList&, ...)`. -/
def registerService (K : Collaborators σ) (d : ctkPluginContextPrivate)
    (clazzes : QStringList) (service : QObjectPtr) (properties : ServiceProperties) (s : σ) :
    Outcome σ ctkServiceRegistration :=
  checked d s <| withPlugin d s fun p =>
    ⟨(K.registerService s p clazzes service properties).1, d,
      (K.registerService s p clazzes service properties).2,
      [Delegation.registerService p clazzes service properties]⟩

/-- The method `ctkPluginContext::registerService(const char*, ...)`. -/
def registerService_clazz (K : Collaborators σ) (d : ctkPluginContextPrivate)
    (clazz : QString) (service : QObjectPtr) (properties : ServiceProperties) (s : σ) :
    Outcome σ ctkServiceRegistration :=
  checked d s <|
    let clazzes : QStringList := [] ++ [clazz]
    withPlugin d s fun p =>
      ⟨(K.registerService s p clazzes service properties).1, d,
        (K.registerService s p clazzes service properties).2,
        [Delegation.registerService p clazzes service properties]⟩

/-- The method `ctkPluginContext::getServiceReferences`. -/
def getServiceReferences (K : Collaborators σ) (d : ctkPluginContextPrivate)
    (clazz filter : QString) (s : σ) : Outcome σ (List ctkServiceReference) :=
  checked d s <| withPlugin d s fun _ =>
    ⟨(K.getReferences s clazz filter).1, d, (K.getReferences s clazz filter).2,
      [Delegation.getReferences clazz filter]⟩

/-- The method `ctkPluginContext::getServiceReference`. -/
def getServiceReference (K : Collaborators σ) (d : ctkPluginContextPrivate)
    (clazz : QString) (s : σ) : Outcome σ ctkServiceReference :=
  checked d s <| withPlugin d s fun p =>
    ⟨(K.getReference s p clazz).1, d, (K.getReference s p clazz).2,
      [Delegation.getReference p clazz]⟩

/-- The method `ctkPluginContext::getService`. -/
def getService (K : Collaborators σ) (d : ctkPluginContextPrivate)
    (reference : ctkServiceReference) (s : σ) : Outcome σ QObjectPtr :=
  checked d s <|
    if reference.isNull then
      Outcome.raise Failure.invalid_argument d s
    else
      withPlugin d s fun p =>
        ⟨Except.ok (K.referenceGetService s reference p.q).1, d,
          (K.referenceGetService s reference p.q).2,
          [Delegation.referenceGetService reference p.q]⟩

/-- The method `ctkPluginContext::ungetService`. -/
def ungetService (K : Collaborators σ) (d : ctkPluginContextPrivate)
    (reference : ctkServiceReference) (s : σ) : Outcome σ Bool :=
  checked d s <| withPlugin d s fun p =>
    ⟨Except.ok (K.referenceUngetService s reference p.q).1, d,
      (K.referenceUngetService s reference p.q).2,
      [Delegation.referenceUngetService reference p.q]⟩

/-- The member call `receiver->connect(&(d->plugin->fwCtx->listeners), SIGNAL(signal),
method, type)`; it dereferences both `receiver` and `d->plugin`. -/
def receiverConnect (K : Collaborators σ) (d : ctkPluginContextPrivate) (signal : Signal)
    (receiver : QObjectPtr) (method : QString) (type : ConnectionType) (s : σ) :
    Outcome σ Bool :=
  match receiver with
  | none => Outcome.raise Failure.nullDereference d s
  | some r =>
    withPlugin d s fun _ =>
      ⟨Except.ok (K.connect s signal r method type).1, d, (K.connect s signal r method type).2,
        [Delegation.connect signal r method type]⟩

/-- The method `ctkPluginContext::connectPluginListener`. -/
def connectPluginListener (K : Collaborators σ) (d : ctkPluginContextPrivate)
    (receiver : QObjectPtr) (method : QString) (type : ConnectionType) (s : σ) :
    Outcome σ Bool :=
  checked d s <|
    if type = ConnectionType.DirectConnection ∨ type = ConnectionType.BlockingQueuedConnection then
      receiverConnect K d Signal.pluginChangedDirect receiver method type s
    else if type = ConnectionType.QueuedConnection then
      receiverConnect K d Signal.pluginChangedQueued receiver method type s
    else
      Outcome.raise Failure.invalid_argument d s

/-- The method `ctkPluginContext::connectFrameworkListener`. -/
def connectFrameworkListener (K : Collaborators σ) (d : ctkPluginContextPrivate)
    (receiver : QObjectPtr) (method : QString) (type : ConnectionType) (s : σ) :
    Outcome σ Bool :=
  checked d s <|
    receiverConnect K d Signal.frameworkEvent receiver method type s

/-- The method `ctkPluginContext::connectServiceListener`; its argument
`getPlugin().data()` is a call of `getPlugin()` on the same context. -/
def connectServiceListener (K : Collaborators σ) (d : ctkPluginContextPrivate)
    (receiver : QObjectPtr) (slot filter : QString) (s : σ) : Outcome σ Unit :=
  checked d s <| withPlugin d s fun _ =>
    match (getPlugin d s).result with
    | Except.error e => Outcome.raise e d s
    | Except.ok q =>
      ⟨(K.addServiceSlot s q receiver slot filter).1, d,
        (K.addServiceSlot s q receiver slot filter).2,
        [Delegation.addServiceSlot q receiver slot filter]⟩

/-- The method `ctkPluginContext::disconnectServiceListener`. -/
def disconnectServiceListener (K : Collaborators σ) (d : ctkPluginContextPrivate)
    (receiver : QObjectPtr) (slot : QString) (s : σ) : Outcome σ Unit :=
  checked d s <| withPlugin d s fun _ =>
    match (getPlugin d s).result with
    | Except.error e => Outcome.raise e d s
    | Except.ok q =>
      ⟨(K.removeServiceSlot s q receiver slot).1, d, (K.removeServiceSlot s q receiver slot).2,
        [Delegation.removeServiceSlot q receiver slot]⟩

end ctkPluginContext

/-! ## Calls as data -/

/-- A call of one public operation of `ctkPluginContext`, with its arguments. -/
inductive Invocation where
  | getProperty (key : QString)
  | getPlugin
  | getPlugin_id (id : Int)
  | getPlugins
  | installPlugin (location : QUrl) (input : QIODevicePtr)
  | getDataFile (filename : QString)
  | registerService (clazzes : QStringList) (service : QObjectPtr)
      (properties : ServiceProperties)
  | registerService_clazz (clazz : QString) (service : QObjectPtr)
      (properties : ServiceProperties)
  | getServiceReferences (clazz filter : QString)
  | getServiceReference (clazz : QString)
  | getService (reference : ctkServiceReference)
  | ungetService (reference : ctkServiceReference)
  | connectPluginListener (receiver : QObjectPtr) (method : QString) (type : ConnectionType)
  | connectFrameworkListener (receiver : QObjectPtr) (method : QString) (type : ConnectionType)
  | connectServiceListener (receiver : QObjectPtr) (slot filter : QString)
  | disconnectServiceListener (receiver : QObjectPtr) (slot : QString)
  deriving DecidableEq, Repr

/-- The call is `getPlugin(long id)`. -/
def Invocation.isGetPluginById : Invocation → Bool
  | Invocation.getPlugin_id _ => true
  | _ => false

open ctkPluginContext in
/-- Runs one public operation on the context `d` and the framework context `s`. -/
def exec {σ : Type} (K : Collaborators σ) (call : Invocation) (d : ctkPluginContextPrivate)
    (s : σ) : Outcome σ Unit :=
  match call with
  | Invocation.getProperty key => (getProperty K d key s).void
  | Invocation.getPlugin => (getPlugin d s).void
  | Invocation.getPlugin_id id => (getPlugin_id K d id s).void
  | Invocation.getPlugins => (getPlugins K d s).void
  | Invocation.installPlugin location input => (installPlugin K d location input s).void
  | Invocation.getDataFile filename => (getDataFile K d filename s).void
  | Invocation.registerService clazzes service properties =>
      (registerService K d clazzes service properties s).void
  | Invocation.registerService_clazz clazz service properties =>
      (registerService_clazz K d clazz service properties s).void
  | Invocation.getServiceReferences clazz filter =>
      (getServiceReferences K d clazz filter s).void
  | Invocation.getServiceReference clazz => (getServiceReference K d clazz s).void
  | Invocation.getService reference => (getService K d reference s).void
  | Invocation.ungetService reference => (ungetService K d reference s).void
  | Invocation.connectPluginListener receiver method type =>
      (connectPluginListener K d receiver method type s).void
  | Invocation.connectFrameworkListener receiver method type =>
      (connectFrameworkListener K d receiver method type s).void
  | Invocation.connectServiceListener receiver slot filter =>
      (connectServiceListener K d receiver slot filter s).void
  | Invocation.disconnectServiceListener receiver slot =>
      (disconnectServiceListener K d receiver slot s).void

/-- What can happen to a context: a public operation is called on it, or the
owning plugin calls `invalidate()`. -/
inductive Step where
  | call (c : Invocation)
  | invalidate
  deriving DecidableEq, Repr

/-- One step on the pair of context and framework context. -/
def step {σ : Type} (K : Collaborators σ) (e : Step) (m : ctkPluginContextPrivate × σ) :
    ctkPluginContextPrivate × σ :=
  match e with
  | Step.call c => ((exec K c m.1 m.2).d, (exec K c m.1 m.2).fwCtx)
  | Step.invalidate => (m.1.invalidate, m.2)

/-- A sequence of steps, first to last. -/
def run {σ : Type} (K : Collaborators σ) :
    List Step → ctkPluginContextPrivate × σ → ctkPluginContextPrivate × σ
  | [], m => m
  | e :: rest, m => run K rest (step K e m)

/-! ## A framework context following the specification

The framework context and the collaborators as the specification describes them,
used to run the operations on concrete inputs.  The filter language is taken as a
parameter `parseFilter` (`none` is a syntax error). -/

/-- Modelled from the spec: the shared state of the FrameworkContext (the
property map, the plugin table, the service registry with its usage counts, the
listener subscriptions) and the directories that exist on disk.
`ctkPluginFrameworkContext_p.h` is not part of the sources. -/
structure ctkPluginFrameworkContext where
  props : QHash
  plugins : List ctkPlugin
  services : List ctkServiceRegistration
  nextServiceId : Nat
  registeredEvents : List Nat
  usage : List (ctkPlugin × Nat)
  connections : List (Signal × Nat × QString × ConnectionType)
  serviceSlots : List (ctkPlugin × QObjectPtr × QString × QString)
  directories : List QString
  writable : Bool
  deriving DecidableEq, Repr

namespace ctkPluginFrameworkContext

/-- Modelled from the spec: the ranking property of a registration request, kept
as the text of an integer under the key `service.ranking`; absent means 0.
`ctkServices.cpp` is not part of the sources. -/
def rankingOf (properties : ServiceProperties) : Int :=
  match QHash.value properties "service.ranking" with
  | QVariant.invalid => 0
  | QVariant.value text => text.toInt?.getD 0

/-- Modelled from the spec: `ctkServices::registerService` (`ctkServices.cpp` is
not part of the sources).  "Creates a ServiceRegistration, assigns a
monotonically increasing service id, inserts into the registry, and synchronously
notifies service listeners of a REGISTERED event.  Fails with invalid-argument if
`typeNames` is empty." -/
def registerService (s : ctkPluginFrameworkContext) (plugin : ctkPluginPrivate)
    (clazzes : QStringList) (service : QObjectPtr) (properties : ServiceProperties) :
    Except Failure ctkServiceRegistration × ctkPluginFrameworkContext :=
  if clazzes.isEmpty then
    (Except.error Failure.invalid_argument, s)
  else
    let registration : ctkServiceRegistration :=
      ⟨plugin.q, clazzes, service, properties, s.nextServiceId, rankingOf properties⟩
    (Except.ok registration,
      { s with
        services := s.services ++ [registration]
        nextServiceId := s.nextServiceId + 1
        registeredEvents := s.registeredEvents ++ [registration.serviceId] })

/-- Modelled from the spec: the lookup order, "descending ranking property, ties
broken by ascending service id". -/
def before (a b : ctkServiceRegistration) : Bool :=
  decide (a.ranking > b.ranking) || (decide (a.ranking = b.ranking) && decide (a.serviceId ≤ b.serviceId))

/-- Modelled from the spec: the candidates of a lookup, "registrations under the
type name (or all registrations if type name omitted)", in lookup order. -/
def candidates (s : ctkPluginFrameworkContext) (clazz : QString) : List ctkServiceRegistration :=
  (s.services.filter fun r => clazz.isEmpty || r.clazzes.contains clazz).insertionSort
    (fun a b => before a b = true)

/-- Modelled from the spec: `ctkServices::get(clazz, filter, 0)`.  "All currently
registered references whose type set contains `typeName` (or all if empty) and
whose properties satisfy the parsed filter (or all if filter is empty).
Unparseable filter fails with a filter-syntax error." -/
def getReferences (parseFilter : QString → Option (ServiceProperties → Bool))
    (s : ctkPluginFrameworkContext) (clazz filter : QString) :
    Except Failure (List ctkServiceReference) × ctkPluginFrameworkContext :=
  if filter.isEmpty then
    (Except.ok ((candidates s clazz).map fun r => ⟨some r.serviceId⟩), s)
  else
    match parseFilter filter with
    | none => (Except.error (Failure.other 0), s)
    | some holds =>
      (Except.ok (((candidates s clazz).filter fun r => holds r.properties).map
        fun r => ⟨some r.serviceId⟩), s)

/-- Modelled from the spec: `ctkServices::get(plugin, clazz)`.  "The single best
match (highest ranking, then lowest service id as tie-break) or an invalid
reference if none." -/
def getReference (s : ctkPluginFrameworkContext) (_plugin : ctkPluginPrivate) (clazz : QString) :
    Except Failure ctkServiceReference × ctkPluginFrameworkContext :=
  match candidates s clazz with
  | [] => (Except.ok ⟨none⟩, s)
  | r :: _ => (Except.ok ⟨some r.serviceId⟩, s)

/-- Modelled from the spec: `ctkServiceReferencePrivate::getService`.
"Increments the per-(plugin,reference) usage count ... and returns it."  The usage
count of a pair is the number of its entries in `usage`. -/
def referenceGetService (s : ctkPluginFrameworkContext) (reference : ctkServiceReference)
    (plugin : ctkPlugin) : QObjectPtr × ctkPluginFrameworkContext :=
  match reference.registration with
  | none => (none, s)
  | some serviceId =>
    match s.services.find? fun r => r.serviceId = serviceId with
    | none => (none, s)
    | some r => (r.service, { s with usage := (plugin, serviceId) :: s.usage })

/-- Modelled from the spec: `ctkServiceReferencePrivate::ungetService`.
"Decrements the usage count for the calling plugin; returns false if the count was
already zero." -/
def referenceUngetService (s : ctkPluginFrameworkContext) (reference : ctkServiceReference)
    (plugin : ctkPlugin) : Bool × ctkPluginFrameworkContext :=
  match reference.registration with
  | none => (false, s)
  | some serviceId =>
    if (plugin, serviceId) ∈ s.usage then
      (true, { s with usage := s.usage.erase (plugin, serviceId) })
    else
      (false, s)

/-- Modelled from the spec: the plugin table's `install`, "returns the new Plugin
handle or fails with an install error".  The loader is out of scope; here an empty
location is the install error and any other location yields a plugin with the next
free id. -/
def install (s : ctkPluginFrameworkContext) (location : QUrl) (_input : QIODevicePtr) :
    Except Failure ctkPlugin × ctkPluginFrameworkContext :=
  if location.isEmpty then
    (Except.error (Failure.other 1), s)
  else
    (Except.ok ⟨s.plugins.length⟩, { s with plugins := s.plugins ++ [⟨s.plugins.length⟩] })

/-- Modelled from the spec: `QDir::mkpath` on this state; it fails on storage that
is not writable ("must tolerate the path not existing yet"). -/
def mkpath (s : ctkPluginFrameworkContext) (path : QString) : Bool × ctkPluginFrameworkContext :=
  if s.writable then
    (true, { s with directories := path :: s.directories })
  else
    (false, s)

/-- Modelled from the spec: `QObject::connect` on the listener object.  A
subscription is recorded; a callback that is absent fails the connect call. -/
def connect (s : ctkPluginFrameworkContext) (signal : Signal) (receiver : Nat)
    (method : QString) (type : ConnectionType) : Bool × ctkPluginFrameworkContext :=
  if method.isEmpty then
    (false, s)
  else
    (true, { s with connections := s.connections ++ [(signal, receiver, method, type)] })

/-- Modelled from the spec: `removeServiceSlot`, "removal must be idempotent". -/
def removeServiceSlot (s : ctkPluginFrameworkContext) (_plugin : ctkPlugin)
    (receiver : QObjectPtr) (slot : QString) : Except Failure Unit × ctkPluginFrameworkContext :=
  (Except.ok (),
    { s with serviceSlots := s.serviceSlots.filter fun e => !(e.2.1 = receiver && e.2.2.1 = slot) })

/-- Modelled from the spec: `addServiceSlot`, "no duplicate (receiver, callback)
pair per category"; an absent callback fails with invalid-argument and an
unparseable filter with a filter-syntax error. -/
def addServiceSlot (parseFilter : QString → Option (ServiceProperties → Bool))
    (s : ctkPluginFrameworkContext) (plugin : ctkPlugin) (receiver : QObjectPtr)
    (slot filter : QString) : Except Failure Unit × ctkPluginFrameworkContext :=
  if slot.isEmpty then
    (Except.error Failure.invalid_argument, s)
  else if !filter.isEmpty && (parseFilter filter).isNone then
    (Except.error (Failure.other 0), s)
  else
    (Except.ok (),
      { s with
        serviceSlots :=
          (s.serviceSlots.filter fun e => !(e.2.1 = receiver && e.2.2.1 = slot)) ++
            [(plugin, receiver, slot, filter)] })

/-- Modelled from the spec: the plugin table's lookup, "`getPlugin(id) -> Plugin |
none`": the plugin of the table with that id, if there is one. -/
def getPlugin (s : ctkPluginFrameworkContext) (id : Int) : Option ctkPlugin :=
  s.plugins.find? fun p => p.id = id

/-- Modelled from the spec: the plugin table's "`getPlugins() -> sequence of
Plugin`". -/
def getPlugins (s : ctkPluginFrameworkContext) : List ctkPlugin :=
  s.plugins

/-- Modelled from the spec: "`dataRoot(plugin) -> path`", the private data-root path
of the plugin. -/
def getDataRoot (_s : ctkPluginFrameworkContext) (plugin : ctkPluginPrivate) : QString :=
  plugin.dataRoot

/-- Modelled from the spec: `QDir::exists` on this state. -/
def dirExists (s : ctkPluginFrameworkContext) (path : QString) : Bool :=
  s.directories.contains path

/-- The collaborators over this framework context. -/
def collaborators (parseFilter : QString → Option (ServiceProperties → Bool)) :
    Collaborators ctkPluginFrameworkContext :=
  ⟨fun s => s.props,
   getPlugin,
   getPlugins,
   install,
   getDataRoot,
   dirExists,
   mkpath,
   registerService,
   getReferences parseFilter,
   getReference,
   referenceGetService,
   referenceUngetService,
   connect,
   addServiceSlot parseFilter,
   removeServiceSlot⟩

end ctkPluginFrameworkContext

/-- A filter language with the empty grammar: every nonempty text parses to the
filter that accepts everything, except the text `(bad`. -/
def sampleFilter (text : QString) : Option (ServiceProperties → Bool) :=
  if text = "(bad" then none else some fun _ => true

/-- A running plugin, number 7. -/
def samplePlugin : ctkPluginPrivate :=
  ⟨⟨7⟩, "/var/ctk/7"⟩

/-- A framework context with one property, one plugin and nothing registered. -/
def sampleFramework : ctkPluginFrameworkContext :=
  ⟨[("org.commontk.version", QVariant.value "0.1")], [⟨7⟩], [], 0, [], [], [], [], [], true⟩

/-! ## Failures that leave the framework context alone -/

/-- The result is the invalid-context or the invalid-argument error. -/
def failedValidityOrArgument {α : Type} : Except Failure α → Bool
  | Except.error e => e.isValidityOrArgument
  | Except.ok _ => false

/-- Each collaborator that can throw leaves the framework context as it found it
whenever it throws the invalid-context or the invalid-argument error (the
specification's "validity and argument errors ... must not partially mutate
state", for the classes that are not part of the sources). -/
def Collaborators.FailureAtomic {σ : Type} (K : Collaborators σ) : Prop :=
  (∀ s location input, failedValidityOrArgument (K.install s location input).1 = true →
      (K.install s location input).2 = s) ∧
    (∀ s p clazzes service properties,
      failedValidityOrArgument (K.registerService s p clazzes service properties).1 = true →
      (K.registerService s p clazzes service properties).2 = s) ∧
    (∀ s clazz filter, failedValidityOrArgument (K.getReferences s clazz filter).1 = true →
      (K.getReferences s clazz filter).2 = s) ∧
    (∀ s p clazz, failedValidityOrArgument (K.getReference s p clazz).1 = true →
      (K.getReference s p clazz).2 = s) ∧
    (∀ s q receiver slot filter,
      failedValidityOrArgument (K.addServiceSlot s q receiver slot filter).1 = true →
      (K.addServiceSlot s q receiver slot filter).2 = s) ∧
    (∀ s q receiver slot,
      failedValidityOrArgument (K.removeServiceSlot s q receiver slot).1 = true →
      (K.removeServiceSlot s q receiver slot).2 = s)

/-- The call is one that the context's own argument check throws on: `getService`
with a default-constructed reference, `connectPluginListener` with a type that is
not direct, blocking-queued or queued. -/
def Invocation.rejectedByContext : Invocation → Bool
  | Invocation.getService reference => reference.isNull
  | Invocation.connectPluginListener _ _ type =>
      decide (type ≠ ConnectionType.DirectConnection ∧
        type ≠ ConnectionType.BlockingQueuedConnection ∧
        type ≠ ConnectionType.QueuedConnection)
  | _ => false

/-! ## Basic facts about the two guards -/

section Guards

variable {σ α : Type}

theorem checked_of_null (s : σ) (rest : Outcome σ α) :
    checked (⟨none⟩ : ctkPluginContextPrivate) s rest =
      Outcome.raise Failure.logic_error ⟨none⟩ s := rfl

theorem checked_of_plugin (p : ctkPluginPrivate) (s : σ) (rest : Outcome σ α) :
    checked (⟨some p⟩ : ctkPluginContextPrivate) s rest = rest := rfl

theorem withPlugin_of_null (s : σ) (rest : ctkPluginPrivate → Outcome σ α) :
    withPlugin (⟨none⟩ : ctkPluginContextPrivate) s rest =
      Outcome.raise Failure.nullDereference ⟨none⟩ s := rfl

theorem withPlugin_of_plugin (p : ctkPluginPrivate) (s : σ)
    (rest : ctkPluginPrivate → Outcome σ α) :
    withPlugin (⟨some p⟩ : ctkPluginContextPrivate) s rest = rest p := rfl

theorem invalidate_eq (d : ctkPluginContextPrivate) : d.invalidate = ⟨none⟩ := rfl

end Guards

/-- On a context whose back-reference is null every operation but `getPlugin(id)`
throws the `logic_error` of the validity check, and `getPlugin(id)` dereferences
the null pointer; in both cases nothing is delegated and nothing changes. -/
theorem exec_of_null {σ : Type} (K : Collaborators σ) (call : Invocation) (s : σ) :
    exec K call ⟨none⟩ s =
      ⟨Except.error (if call.isGetPluginById then Failure.nullDereference
        else Failure.logic_error), ⟨none⟩, s, []⟩ := by
  cases call <;> rfl

/-- No public operation writes the back-reference. -/
theorem exec_d {σ : Type} (K : Collaborators σ) (call : Invocation)
    (d : ctkPluginContextPrivate) (s : σ) : (exec K call d s).d = d := by
  rcases d with ⟨_ | p⟩
  · rw [exec_of_null]
  · cases call <;>
      simp only [exec, Outcome.void, ctkPluginContext.getProperty, ctkPluginContext.getPlugin,
        ctkPluginContext.getPlugin_id, ctkPluginContext.getPlugins,
        ctkPluginContext.installPlugin, ctkPluginContext.getDataFile,
        ctkPluginContext.registerService, ctkPluginContext.registerService_clazz,
        ctkPluginContext.getServiceReferences, ctkPluginContext.getServiceReference,
        ctkPluginContext.getService, ctkPluginContext.ungetService,
        ctkPluginContext.connectPluginListener, ctkPluginContext.connectFrameworkListener,
        ctkPluginContext.connectServiceListener, ctkPluginContext.disconnectServiceListener,
        ctkPluginContext.receiverConnect, checked_of_plugin, withPlugin_of_plugin,
        Outcome.raise] <;>
      (repeat' split) <;> rfl

/-- An invalidated context stays invalidated along every sequence of steps. -/
theorem run_of_null {σ : Type} (K : Collaborators σ) (steps : List Step) (s : σ) :
    (run K steps (⟨none⟩, s)).1 = ⟨none⟩ := by
  induction steps generalizing s with
  | nil => rfl
  | cons e rest ih =>
    cases e with
    | call c =>
      have h : step K (Step.call c) (⟨none⟩, s) = (⟨none⟩, s) := by
        simp only [step, exec_of_null]
      simp only [run, h]
      exact ih s
    | invalidate => exact ih s

/-! ## The claims -/

/-- C1 (the code departs from it at `getPlugin(id)`): on a context on which
`invalidate()` has been called, every public operation except `getPlugin(id)`
fails with the invalid-context `logic_error`, whatever its arguments; `getPlugin(id)`
does not: it has no validity check and dereferences the null back-reference. -/
theorem invalidated_context_fails_except_getPlugin_id {σ : Type} (K : Collaborators σ)
    (call : Invocation) (d : ctkPluginContextPrivate) (id : Int) (s : σ) :
    (exec K call d.invalidate s).result =
        Except.error (if call.isGetPluginById then Failure.nullDereference
          else Failure.logic_error) ∧
      (ctkPluginContext.getPlugin_id K d.invalidate id s).result =
        Except.error Failure.nullDereference ∧
      (ctkPluginContext.getPlugin_id K d.invalidate id s).result ≠
        Except.error Failure.logic_error := by
  refine ⟨?_, rfl, ?_⟩
  · rw [invalidate_eq, exec_of_null]
  · intro h
    cases h

/-- C7: `getPlugin(id)` has no validity check: on no context at all does it fail
with the invalid-context `logic_error` (on an invalidated one it dereferences the
null back-reference), whereas `getPlugin()` and `getPlugins()` do fail with it on
an invalidated context; on a valid context it makes exactly one call, the lookup in
the plugin table, and returns that lookup's result, the null handle included: with
the plugin table of the specification, the null handle for an id not in the table. -/
theorem getPlugin_id_has_no_validity_check {σ : Type} (K : Collaborators σ)
    (d : ctkPluginContextPrivate) (p : ctkPluginPrivate) (id : Int) (s : σ) :
    (ctkPluginContext.getPlugin_id K d id s).result ≠ Except.error Failure.logic_error ∧
      (ctkPluginContext.getPlugin_id K d.invalidate id s).result =
        Except.error Failure.nullDereference ∧
      (ctkPluginContext.getPlugin (σ := σ) d.invalidate s).result =
        Except.error Failure.logic_error ∧
      (ctkPluginContext.getPlugins K d.invalidate s).result =
        Except.error Failure.logic_error ∧
      ctkPluginContext.getPlugin_id K (ctkPluginContext.create (some p)) id s =
        ⟨Except.ok (K.getPlugin s id), ctkPluginContext.create (some p), s,
          [Delegation.getPlugin id]⟩ ∧
      (∀ (parseFilter : QString → Option (ServiceProperties → Bool))
          (t : ctkPluginFrameworkContext), (∀ q ∈ t.plugins, q.id ≠ id) →
        (ctkPluginContext.getPlugin_id (ctkPluginFrameworkContext.collaborators parseFilter)
          (ctkPluginContext.create (some p)) id t).result = Except.ok none) := by
  refine ⟨?_, rfl, rfl, rfl, rfl, ?_⟩
  · rcases d with ⟨_ | q⟩
    · intro h
      cases h
    · intro h
      cases h
  · intro parseFilter t h
    have hnone : ctkPluginFrameworkContext.getPlugin t id = none := by
      simp only [ctkPluginFrameworkContext.getPlugin, List.find?_eq_none, decide_eq_true_eq]
      exact h
    show Except.ok (ctkPluginFrameworkContext.getPlugin t id) = Except.ok none
    rw [hnone]

/-- C7, on the sample framework, whose table holds plugin 7 only: the lookup of 3. -/
theorem getPlugin_id_has_no_validity_check_witness :
    (∀ q ∈ sampleFramework.plugins, q.id ≠ 3) ∧
      (ctkPluginContext.getPlugin_id (ctkPluginFrameworkContext.collaborators sampleFilter)
        (ctkPluginContext.create (some samplePlugin)) 3 sampleFramework).result =
        Except.ok none :=
  ⟨by decide,
    (getPlugin_id_has_no_validity_check (ctkPluginFrameworkContext.collaborators sampleFilter)
      (ctkPluginContext.create (some samplePlugin)) samplePlugin 3 sampleFramework).2.2.2.2.2
      sampleFilter sampleFramework (by decide)⟩

/-- C10: a context constructed with a non-null owning plugin is valid; no public
operation, succeeding or failing, changes the back-reference; `invalidate()` clears
it and is idempotent; and after `invalidate()` the validity check fails along every
sequence of public operations and further invalidations. -/
theorem validity_changes_only_through_invalidate {σ : Type} (K : Collaborators σ)
    (p : ctkPluginPrivate) (call : Invocation) (d : ctkPluginContextPrivate)
    (steps : List Step) (s : σ) :
    (ctkPluginContext.create (some p)).isPluginContextValid = Except.ok () ∧
      (exec K call d s).d = d ∧
      d.invalidate.plugin = none ∧
      d.invalidate.isPluginContextValid = Except.error Failure.logic_error ∧
      d.invalidate.invalidate = d.invalidate ∧
      (run K steps (d.invalidate, s)).1.plugin = none ∧
      (run K steps (d.invalidate, s)).1.isPluginContextValid =
        Except.error Failure.logic_error := by
  refine ⟨rfl, exec_d K call d s, rfl, rfl, rfl, ?_, ?_⟩
  · rw [invalidate_eq, run_of_null]
  · rw [invalidate_eq, run_of_null]
    rfl

/-- C2: on a valid context `connectPluginListener` connects the receiver's method to
`pluginChangedDirect` when the type is direct or blocking-queued and to
`pluginChangedQueued` when it is queued, returning what the connection returns; for
every other type it throws `invalid_argument`, whatever the receiver, and makes no
call at all, so no connection. -/
theorem connectPluginListener_channels {σ : Type} (K : Collaborators σ)
    (p : ctkPluginPrivate) (r : Nat) (receiver : QObjectPtr) (method : QString)
    (type : ConnectionType) (s : σ) :
    (type = ConnectionType.DirectConnection ∨ type = ConnectionType.BlockingQueuedConnection →
        ctkPluginContext.connectPluginListener K (ctkPluginContext.create (some p)) (some r)
            method type s =
          ⟨Except.ok (K.connect s Signal.pluginChangedDirect r method type).1,
            ctkPluginContext.create (some p),
            (K.connect s Signal.pluginChangedDirect r method type).2,
            [Delegation.connect Signal.pluginChangedDirect r method type]⟩) ∧
      (type = ConnectionType.QueuedConnection →
        ctkPluginContext.connectPluginListener K (ctkPluginContext.create (some p)) (some r)
            method type s =
          ⟨Except.ok (K.connect s Signal.pluginChangedQueued r method type).1,
            ctkPluginContext.create (some p),
            (K.connect s Signal.pluginChangedQueued r method type).2,
            [Delegation.connect Signal.pluginChangedQueued r method type]⟩) ∧
      (type ≠ ConnectionType.DirectConnection → type ≠ ConnectionType.BlockingQueuedConnection →
        type ≠ ConnectionType.QueuedConnection →
        ctkPluginContext.connectPluginListener K (ctkPluginContext.create (some p)) receiver
            method type s =
          ⟨Except.error Failure.invalid_argument, ctkPluginContext.create (some p), s, []⟩) := by
  refine ⟨?_, ?_, ?_⟩
  · intro h
    simp only [ctkPluginContext.connectPluginListener, ctkPluginContext.create,
      checked_of_plugin, if_pos h, ctkPluginContext.receiverConnect, withPlugin_of_plugin]
  · intro h
    subst h
    rfl
  · intro h1 h2 h3
    have h12 : ¬ (type = ConnectionType.DirectConnection ∨
        type = ConnectionType.BlockingQueuedConnection) := by
      rintro (h | h)
      · exact h1 h
      · exact h2 h
    simp only [ctkPluginContext.connectPluginListener, ctkPluginContext.create,
      checked_of_plugin, if_neg h12, if_neg h3, Outcome.raise]

/-- C2, on the sample framework: a direct, a queued and an automatic connection. -/
theorem connectPluginListener_channels_witness :
    (ctkPluginContext.connectPluginListener
        (ctkPluginFrameworkContext.collaborators sampleFilter)
        (ctkPluginContext.create (some samplePlugin)) (some 1) "onPluginEvent"
        ConnectionType.DirectConnection sampleFramework).calls =
        [Delegation.connect Signal.pluginChangedDirect 1 "onPluginEvent"
          ConnectionType.DirectConnection] ∧
      (ctkPluginContext.connectPluginListener
        (ctkPluginFrameworkContext.collaborators sampleFilter)
        (ctkPluginContext.create (some samplePlugin)) (some 1) "onPluginEvent"
        ConnectionType.QueuedConnection sampleFramework).calls =
        [Delegation.connect Signal.pluginChangedQueued 1 "onPluginEvent"
          ConnectionType.QueuedConnection] ∧
      (ctkPluginContext.connectPluginListener
        (ctkPluginFrameworkContext.collaborators sampleFilter)
        (ctkPluginContext.create (some samplePlugin)) (some 1) "onPluginEvent"
        ConnectionType.AutoConnection sampleFramework).result =
        Except.error Failure.invalid_argument :=
  ⟨congrArg Outcome.calls
      ((connectPluginListener_channels (ctkPluginFrameworkContext.collaborators sampleFilter)
        samplePlugin 1 (some 1) "onPluginEvent" ConnectionType.DirectConnection
        sampleFramework).1 (Or.inl rfl)),
    congrArg Outcome.calls
      ((connectPluginListener_channels (ctkPluginFrameworkContext.collaborators sampleFilter)
        samplePlugin 1 (some 1) "onPluginEvent" ConnectionType.QueuedConnection
        sampleFramework).2.1 rfl),
    congrArg Outcome.result
      ((connectPluginListener_channels (ctkPluginFrameworkContext.collaborators sampleFilter)
        samplePlugin 1 (some 1) "onPluginEvent" ConnectionType.AutoConnection
        sampleFramework).2.2 (by decide) (by decide) (by decide))⟩

/-- C3, as stated, fails: on the sample framework `connectFrameworkListener` with
the automatic type does not throw `invalid_argument`; it returns true and the
connection to `frameworkEvent` is made. -/
theorem connectFrameworkListener_auto_connects :
    (ctkPluginContext.connectFrameworkListener
        (ctkPluginFrameworkContext.collaborators sampleFilter)
        (ctkPluginContext.create (some samplePlugin)) (some 1) "onFrameworkEvent"
        ConnectionType.AutoConnection sampleFramework).result = Except.ok true ∧
      (ctkPluginContext.connectFrameworkListener
        (ctkPluginFrameworkContext.collaborators sampleFilter)
        (ctkPluginContext.create (some samplePlugin)) (some 1) "onFrameworkEvent"
        ConnectionType.AutoConnection sampleFramework).result ≠
        Except.error Failure.invalid_argument ∧
      (ctkPluginContext.connectFrameworkListener
        (ctkPluginFrameworkContext.collaborators sampleFilter)
        (ctkPluginContext.create (some samplePlugin)) (some 1) "onFrameworkEvent"
        ConnectionType.AutoConnection sampleFramework).calls =
        [Delegation.connect Signal.frameworkEvent 1 "onFrameworkEvent"
          ConnectionType.AutoConnection] ∧
      (ctkPluginContext.connectFrameworkListener
        (ctkPluginFrameworkContext.collaborators sampleFilter)
        (ctkPluginContext.create (some samplePlugin)) (some 1) "onFrameworkEvent"
        ConnectionType.AutoConnection sampleFramework).fwCtx.connections =
        [(Signal.frameworkEvent, 1, "onFrameworkEvent", ConnectionType.AutoConnection)] := by
  refine ⟨rfl, ?_, rfl, rfl⟩
  intro h
  cases h

/-- C3 as amended: on a valid context `connectFrameworkListener` never throws
`invalid_argument`; for every connection type, the automatic one included, it makes
exactly one call, connecting the receiver's method to the single signal
`frameworkEvent` with the requested type, and returns what the connection returns. -/
theorem connectFrameworkListener_single_channel {σ : Type} (K : Collaborators σ)
    (p : ctkPluginPrivate) (r : Nat) (method : QString) (type : ConnectionType) (s : σ) :
    ctkPluginContext.connectFrameworkListener K (ctkPluginContext.create (some p)) (some r)
        method type s =
      ⟨Except.ok (K.connect s Signal.frameworkEvent r method type).1,
        ctkPluginContext.create (some p),
        (K.connect s Signal.frameworkEvent r method type).2,
        [Delegation.connect Signal.frameworkEvent r method type]⟩ ∧
      (ctkPluginContext.connectFrameworkListener K (ctkPluginContext.create (some p)) (some r)
        method type s).result ≠ Except.error Failure.invalid_argument := by
  refine ⟨rfl, ?_⟩
  intro h
  cases h

/-- C4: on a valid context `getService` with a default-constructed reference throws
`invalid_argument` before any call is made, so the reference's `getService` is not
reached and the framework context (usage counts included) is unchanged; with a
reference that is not default-constructed it makes exactly one call, the
reference's `getService` for the calling plugin, and returns what that returns. -/
theorem getService_rejects_default_reference {σ : Type} (K : Collaborators σ)
    (p : ctkPluginPrivate) (registration : Nat) (s : σ) :
    ctkPluginContext.getService K (ctkPluginContext.create (some p)) ⟨none⟩ s =
        ⟨Except.error Failure.invalid_argument, ctkPluginContext.create (some p), s, []⟩ ∧
      ctkPluginContext.getService K (ctkPluginContext.create (some p)) ⟨some registration⟩ s =
        ⟨Except.ok (K.referenceGetService s ⟨some registration⟩ p.q).1,
          ctkPluginContext.create (some p),
          (K.referenceGetService s ⟨some registration⟩ p.q).2,
          [Delegation.referenceGetService ⟨some registration⟩ p.q]⟩ :=
  ⟨rfl, rfl⟩

/-- C8: on a valid context `getDataFile` always returns the `QFileInfo` of the file
name in the plugin's data root, never a failure; `mkpath` is called exactly when the
data root does not exist, and the warning is issued exactly when that `mkpath`
returns false; when the data root exists the framework context is unchanged. -/
theorem getDataFile_always_returns_path {σ : Type} (K : Collaborators σ)
    (p : ctkPluginPrivate) (filename : QString) (s : σ) :
    (ctkPluginContext.getDataFile K (ctkPluginContext.create (some p)) filename s).result =
        Except.ok ⟨K.getDataRoot s p, filename⟩ ∧
      (Delegation.mkpath (K.getDataRoot s p) ∈
          (ctkPluginContext.getDataFile K (ctkPluginContext.create (some p)) filename s).calls ↔
        K.dirExists s (K.getDataRoot s p) = false) ∧
      (Delegation.qWarning (K.getDataRoot s p) ∈
          (ctkPluginContext.getDataFile K (ctkPluginContext.create (some p)) filename s).calls ↔
        K.dirExists s (K.getDataRoot s p) = false ∧
          (K.mkpath s (K.getDataRoot s p)).1 = false) ∧
      (ctkPluginContext.getDataFile K (ctkPluginContext.create (some p)) filename s).fwCtx =
        (if K.dirExists s (K.getDataRoot s p) then s else (K.mkpath s (K.getDataRoot s p)).2) ∧
      (ctkPluginContext.getDataFile K (ctkPluginContext.create (some p)) filename s).calls.length
        = (if K.dirExists s (K.getDataRoot s p) then 1
            else if (K.mkpath s (K.getDataRoot s p)).1 then 2 else 3) := by
  simp only [ctkPluginContext.getDataFile, ctkPluginContext.create, checked_of_plugin,
    withPlugin_of_plugin]
  cases hE : K.dirExists s (K.getDataRoot s p) <;> cases hM : (K.mkpath s (K.getDataRoot s p)).1 <;>
    simp

/-- The function `QHash.value` returns the first value stored under the key. -/
theorem QHash.value_of_lookup (m : QHash) (key : QString) (v : QVariant)
    (h : List.lookup key m = some v) : QHash.value m key = v := by
  induction m with
  | nil => simp at h
  | cons e rest ih =>
    obtain ⟨k, w⟩ := e
    by_cases hk : k = key
    · subst hk
      simp only [List.lookup, beq_self_eq_true] at h
      simp only [QHash.value, if_true]
      exact Option.some.inj h
    · have hb : (key == k) = false := by
        simp only [beq_eq_false_iff_ne, ne_eq]
        exact fun h2 => hk h2.symm
      simp only [List.lookup, hb] at h
      simp only [QHash.value, if_neg hk]
      exact ih h

/-- The function `QHash.value` returns the default value when no entry has the key. -/
theorem QHash.value_of_absent (m : QHash) (key : QString)
    (h : ∀ v, (key, v) ∉ m) : QHash.value m key = QVariant.invalid := by
  induction m with
  | nil => rfl
  | cons e rest ih =>
    obtain ⟨k, w⟩ := e
    have hk : k ≠ key := by
      intro hk
      subst hk
      exact h w (List.mem_cons_self _ _)
    simp only [QHash.value, if_neg hk]
    exact ih fun v hv => h v (List.mem_cons_of_mem _ hv)

/-- C9: on a valid context `getProperty` never fails: it returns the value stored
under the key in the framework's property map, or the invalid (empty) `QVariant`
when no entry has that key; it makes no call and leaves the framework context, and
so the property map, unchanged. -/
theorem getProperty_returns_stored_value {σ : Type} (K : Collaborators σ)
    (p : ctkPluginPrivate) (key : QString) (s : σ) :
    (∀ v, List.lookup key (K.props s) = some v →
        (ctkPluginContext.getProperty K (ctkPluginContext.create (some p)) key s).result =
          Except.ok v) ∧
      ((∀ v, (key, v) ∉ K.props s) →
        (ctkPluginContext.getProperty K (ctkPluginContext.create (some p)) key s).result =
          Except.ok QVariant.invalid) ∧
      (∃ v, (ctkPluginContext.getProperty K (ctkPluginContext.create (some p)) key s).result =
          Except.ok v) ∧
      (ctkPluginContext.getProperty K (ctkPluginContext.create (some p)) key s).fwCtx = s ∧
      K.props (ctkPluginContext.getProperty K (ctkPluginContext.create (some p)) key s).fwCtx =
        K.props s ∧
      (ctkPluginContext.getProperty K (ctkPluginContext.create (some p)) key s).calls = [] := by
  refine ⟨?_, ?_, ⟨QHash.value (K.props s) key, rfl⟩, rfl, rfl, rfl⟩
  · intro v h
    simp only [ctkPluginContext.getProperty, ctkPluginContext.create, checked_of_plugin,
      withPlugin_of_plugin, QHash.value_of_lookup _ _ _ h]
  · intro h
    simp only [ctkPluginContext.getProperty, ctkPluginContext.create, checked_of_plugin,
      withPlugin_of_plugin, QHash.value_of_absent _ _ h]

/-- C9, on the sample framework: a key that is stored and a key that is not. -/
theorem getProperty_returns_stored_value_witness :
    (ctkPluginContext.getProperty (ctkPluginFrameworkContext.collaborators sampleFilter)
        (ctkPluginContext.create (some samplePlugin)) "org.commontk.version"
        sampleFramework).result = Except.ok (QVariant.value "0.1") ∧
      (ctkPluginContext.getProperty (ctkPluginFrameworkContext.collaborators sampleFilter)
        (ctkPluginContext.create (some samplePlugin)) "missing"
        sampleFramework).result = Except.ok QVariant.invalid :=
  ⟨(getProperty_returns_stored_value (ctkPluginFrameworkContext.collaborators sampleFilter)
      samplePlugin "org.commontk.version" sampleFramework).1 (QVariant.value "0.1")
      (by decide),
    (getProperty_returns_stored_value (ctkPluginFrameworkContext.collaborators sampleFilter)
      samplePlugin "missing" sampleFramework).2.1
      (by
        intro v hv
        simp [ctkPluginFrameworkContext.collaborators, sampleFramework] at hv)⟩

/-- C6: with the registry of the specification, on a valid context
`registerService` with an empty list of type names fails with `invalid_argument`
(raised by the registry, the one call made) and the framework context is unchanged:
no registration is added, no service id is used, no event is delivered.  The
overload taking a single name always passes a list of one name. -/
theorem registerService_empty_list_rejected
    (parseFilter : QString → Option (ServiceProperties → Bool)) (p : ctkPluginPrivate)
    (service : QObjectPtr) (properties : ServiceProperties) (clazz : QString)
    (s : ctkPluginFrameworkContext) :
    ctkPluginContext.registerService (ctkPluginFrameworkContext.collaborators parseFilter)
        (ctkPluginContext.create (some p)) [] service properties s =
      ⟨Except.error Failure.invalid_argument, ctkPluginContext.create (some p), s,
        [Delegation.registerService p [] service properties]⟩ ∧
      (ctkPluginContext.registerService (ctkPluginFrameworkContext.collaborators parseFilter)
        (ctkPluginContext.create (some p)) [] service properties s).fwCtx.services =
        s.services ∧
      ctkPluginContext.registerService_clazz
          (ctkPluginFrameworkContext.collaborators parseFilter)
          (ctkPluginContext.create (some p)) clazz service properties s =
        ctkPluginContext.registerService (ctkPluginFrameworkContext.collaborators parseFilter)
          (ctkPluginContext.create (some p)) [clazz] service properties s ∧
      (ctkPluginContext.registerService_clazz
          (ctkPluginFrameworkContext.collaborators parseFilter)
          (ctkPluginContext.create (some p)) clazz service properties s).fwCtx.services =
        s.services ++ [⟨p.q, [clazz], service, properties, s.nextServiceId,
          ctkPluginFrameworkContext.rankingOf properties⟩] :=
  ⟨rfl, rfl, rfl, rfl⟩

/-- On a valid context `getDataFile` returns a value. -/
theorem getDataFile_result {σ : Type} (K : Collaborators σ) (p : ctkPluginPrivate)
    (filename : QString) (s : σ) :
    (ctkPluginContext.getDataFile K ⟨some p⟩ filename s).result =
      Except.ok ⟨K.getDataRoot s p, filename⟩ := by
  simp only [ctkPluginContext.getDataFile, checked_of_plugin, withPlugin_of_plugin]
  (repeat' split) <;> rfl

theorem failedValidityOrArgument_void {σ α : Type} (o : Outcome σ α) :
    failedValidityOrArgument o.void.result = failedValidityOrArgument o.result := by
  rcases o with ⟨_ | _, _, _, _⟩ <;> rfl

/-- The collaborators of the specification throw without changing anything. -/
theorem ctkPluginFrameworkContext.collaborators_failureAtomic
    (parseFilter : QString → Option (ServiceProperties → Bool)) :
    (ctkPluginFrameworkContext.collaborators parseFilter).FailureAtomic := by
  refine ⟨?_, ?_, ?_, ?_, ?_, ?_⟩
  · intro s location input
    simp only [collaborators, install]
    split <;> simp [failedValidityOrArgument, Failure.isValidityOrArgument]
  · intro s p clazzes service properties
    simp only [collaborators, registerService]
    split <;> simp [failedValidityOrArgument]
  · intro s clazz filter
    simp only [collaborators, getReferences]
    split
    · simp [failedValidityOrArgument]
    · split <;> simp [failedValidityOrArgument, Failure.isValidityOrArgument]
  · intro s p clazz
    simp only [collaborators, getReference]
    split <;> simp [failedValidityOrArgument]
  · intro s q receiver slot filter
    simp only [collaborators, addServiceSlot]
    split
    · simp
    · split <;> simp [failedValidityOrArgument, Failure.isValidityOrArgument]
  · intro s q receiver slot
    simp [collaborators, removeServiceSlot, failedValidityOrArgument]

/-- With collaborators that throw without changing anything, a public operation
that fails with the invalid-context or the invalid-argument error leaves the
framework context as it was. -/
theorem exec_fwCtx_of_failureAtomic {σ : Type} (K : Collaborators σ)
    (hK : K.FailureAtomic) (call : Invocation) (d : ctkPluginContextPrivate) (s : σ)
    (h : failedValidityOrArgument (exec K call d s).result = true) :
    (exec K call d s).fwCtx = s := by
  obtain ⟨hInstall, hRegister, hRefs, hRef, hAdd, hRemove⟩ := hK
  rcases d with ⟨_ | p⟩
  · rw [exec_of_null]
  · cases call with
    | getProperty key => rfl
    | getPlugin => rfl
    | getPlugin_id id => rfl
    | getPlugins => rfl
    | installPlugin location input =>
      exact hInstall s location input (by
        rw [← h, exec, failedValidityOrArgument_void]; rfl)
    | getDataFile filename =>
      exfalso
      have hr := (getDataFile_result K p filename s)
      rw [exec, failedValidityOrArgument_void, hr] at h
      exact Bool.false_ne_true h
    | registerService clazzes service properties =>
      exact hRegister s p clazzes service properties (by
        rw [← h, exec, failedValidityOrArgument_void]; rfl)
    | registerService_clazz clazz service properties =>
      exact hRegister s p [clazz] service properties (by
        rw [← h, exec, failedValidityOrArgument_void]; rfl)
    | getServiceReferences clazz filter =>
      exact hRefs s clazz filter (by
        rw [← h, exec, failedValidityOrArgument_void]; rfl)
    | getServiceReference clazz =>
      exact hRef s p clazz (by
        rw [← h, exec, failedValidityOrArgument_void]; rfl)
    | getService reference =>
      rcases reference with ⟨_ | registration⟩
      · rfl
      · exfalso
        exact Bool.false_ne_true h
    | ungetService reference =>
      exfalso
      exact Bool.false_ne_true h
    | connectPluginListener receiver method type =>
      rcases receiver with _ | r
      · cases type <;> rfl
      · cases type <;> first | rfl | (exfalso; exact Bool.false_ne_true h)
    | connectFrameworkListener receiver method type =>
      rcases receiver with _ | r
      · rfl
      · exfalso
        exact Bool.false_ne_true h
    | connectServiceListener receiver slot filter =>
      exact hAdd s p.q receiver slot filter (by
        rw [← h, exec, failedValidityOrArgument_void]; rfl)
    | disconnectServiceListener receiver slot =>
      exact hRemove s p.q receiver slot (by
        rw [← h, exec, failedValidityOrArgument_void]; rfl)

/-- When the context's own check fails (the back-reference is null, or the context's
argument check rejects the call) the call ends in a failure with nothing delegated
and nothing changed. -/
theorem exec_of_own_check {σ : Type} (K : Collaborators σ) (call : Invocation)
    (d : ctkPluginContextPrivate) (s : σ)
    (h : d.plugin = none ∨ call.rejectedByContext = true) :
    exec K call d s =
      ⟨Except.error (if d.plugin = none then
          (if call.isGetPluginById then Failure.nullDereference else Failure.logic_error)
          else Failure.invalid_argument), d, s, []⟩ := by
  rcases d with ⟨_ | p⟩
  · rw [exec_of_null]
    simp
  · rcases h with hd | hc
    · cases hd
    · cases call with
      | getService reference =>
        rcases reference with ⟨_ | registration⟩
        · rfl
        · exact (Bool.false_ne_true hc).elim
      | connectPluginListener receiver method type =>
        cases type <;> first | rfl | exact (Bool.false_ne_true hc).elim
      | _ => exact (Bool.false_ne_true hc).elim

/-- A failure with the invalid-context or the invalid-argument error that is not
raised by the context's own checks is raised inside the one delegated call. -/
theorem exec_calls_of_delegated_failure {σ : Type} (K : Collaborators σ)
    (call : Invocation) (p : ctkPluginPrivate) (s : σ)
    (h : failedValidityOrArgument (exec K call ⟨some p⟩ s).result = true)
    (hc : call.rejectedByContext = false) :
    (exec K call ⟨some p⟩ s).calls.length = 1 := by
  cases call with
  | getProperty key => exact (Bool.false_ne_true h).elim
  | getPlugin => exact (Bool.false_ne_true h).elim
  | getPlugin_id id => rfl
  | getPlugins => rfl
  | installPlugin location input => rfl
  | getDataFile filename =>
    exfalso
    have hr := (getDataFile_result K p filename s)
    rw [exec, failedValidityOrArgument_void, hr] at h
    exact Bool.false_ne_true h
  | registerService clazzes service properties => rfl
  | registerService_clazz clazz service properties => rfl
  | getServiceReferences clazz filter => rfl
  | getServiceReference clazz => rfl
  | getService reference =>
    rcases reference with ⟨_ | registration⟩
    · exact (Bool.false_ne_true hc.symm).elim
    · rfl
  | ungetService reference => rfl
  | connectPluginListener receiver method type =>
    rcases receiver with _ | r
    · cases type <;>
        first | exact (Bool.false_ne_true h).elim | exact (Bool.false_ne_true hc.symm).elim
    · cases type <;> first | rfl | exact (Bool.false_ne_true hc.symm).elim
  | connectFrameworkListener receiver method type =>
    rcases receiver with _ | r
    · exact (Bool.false_ne_true h).elim
    · rfl
  | connectServiceListener receiver slot filter => rfl
  | disconnectServiceListener receiver slot => rfl

/-- C5, as stated, fails: with the registry of the specification, `registerService`
with an empty list of type names on a valid context fails with `invalid_argument`,
yet the failing check did not run before the delegation: the registry has been
called, and it is the registry that rejects. -/
theorem registerService_empty_list_fails_inside_delegation :
    failedValidityOrArgument
        (exec (ctkPluginFrameworkContext.collaborators sampleFilter)
          (Invocation.registerService [] (some 3) [])
          (ctkPluginContext.create (some samplePlugin)) sampleFramework).result = true ∧
      (exec (ctkPluginFrameworkContext.collaborators sampleFilter)
          (Invocation.registerService [] (some 3) [])
          (ctkPluginContext.create (some samplePlugin)) sampleFramework).calls =
        [Delegation.registerService samplePlugin [] (some 3) []] ∧
      (exec (ctkPluginFrameworkContext.collaborators sampleFilter)
          (Invocation.registerService [] (some 3) [])
          (ctkPluginContext.create (some samplePlugin)) sampleFramework).calls ≠ [] := by
  refine ⟨rfl, rfl, ?_⟩
  intro h
  cases h

/-- C5 as amended: (1) when the failing check is the context's own (the validity
check on a null back-reference, the default reference in `getService`, the
unsupported type in `connectPluginListener`) the operation fails before any
delegation: no call is made, and the framework context and the back-reference are
exactly what they were, for all collaborators; (2) every other failure with the
invalid-context or the invalid-argument error is raised inside the one delegated
call; (3) with the registry, listeners and loader of the specification, every
operation that fails with the invalid-context or the invalid-argument error leaves
the framework context and the back-reference exactly as they were. -/
theorem failure_leaves_state_unchanged {σ : Type} (K : Collaborators σ)
    (parseFilter : QString → Option (ServiceProperties → Bool)) (call : Invocation)
    (d : ctkPluginContextPrivate) (s : σ) (t : ctkPluginFrameworkContext) :
    (d.plugin = none ∨ call.rejectedByContext = true →
        (exec K call d s).calls = [] ∧ (exec K call d s).fwCtx = s ∧
          (exec K call d s).d = d ∧
          (exec K call d s).result =
            Except.error (if d.plugin = none then
              (if call.isGetPluginById then Failure.nullDereference
                else Failure.logic_error)
              else Failure.invalid_argument)) ∧
      (failedValidityOrArgument (exec K call d s).result = true →
        ¬ (d.plugin = none ∨ call.rejectedByContext = true) →
        (exec K call d s).calls.length = 1) ∧
      (failedValidityOrArgument
          (exec (ctkPluginFrameworkContext.collaborators parseFilter) call d t).result = true →
        (exec (ctkPluginFrameworkContext.collaborators parseFilter) call d t).fwCtx = t ∧
          (exec (ctkPluginFrameworkContext.collaborators parseFilter) call d t).d = d) := by
  refine ⟨?_, ?_, ?_⟩
  · intro h
    rw [exec_of_own_check K call d s h]
    exact ⟨rfl, rfl, rfl, rfl⟩
  · intro h hn
    rcases d with ⟨_ | p⟩
    · exact (hn (Or.inl rfl)).elim
    · have hc : call.rejectedByContext = false := by
        cases hr : call.rejectedByContext
        · rfl
        · exact (hn (Or.inr hr)).elim
      exact exec_calls_of_delegated_failure K call p s h hc
  · intro h
    exact ⟨exec_fwCtx_of_failureAtomic _
      (ctkPluginFrameworkContext.collaborators_failureAtomic parseFilter) call d t h,
      exec_d _ call d t⟩

/-- C5 as amended, on the sample framework: a `getService` with a default-constructed
reference, rejected by the context before any call, and a service listener with no
slot, rejected by the listeners inside the one call made, with nothing changed. -/
theorem failure_leaves_state_unchanged_witness :
    (exec (ctkPluginFrameworkContext.collaborators sampleFilter)
        (Invocation.getService ⟨none⟩)
        (ctkPluginContext.create (some samplePlugin)) sampleFramework).calls = [] ∧
      failedValidityOrArgument
        (exec (ctkPluginFrameworkContext.collaborators sampleFilter)
          (Invocation.connectServiceListener (some 1) "" "")
          (ctkPluginContext.create (some samplePlugin)) sampleFramework).result = true ∧
      (exec (ctkPluginFrameworkContext.collaborators sampleFilter)
          (Invocation.connectServiceListener (some 1) "" "")
          (ctkPluginContext.create (some samplePlugin)) sampleFramework).calls.length = 1 ∧
      (exec (ctkPluginFrameworkContext.collaborators sampleFilter)
          (Invocation.connectServiceListener (some 1) "" "")
          (ctkPluginContext.create (some samplePlugin)) sampleFramework).fwCtx =
        sampleFramework :=
  ⟨((failure_leaves_state_unchanged (ctkPluginFrameworkContext.collaborators sampleFilter)
      sampleFilter (Invocation.getService ⟨none⟩)
      (ctkPluginContext.create (some samplePlugin)) sampleFramework sampleFramework).1
      (Or.inr rfl)).1,
    rfl,
    (failure_leaves_state_unchanged (ctkPluginFrameworkContext.collaborators sampleFilter)
      sampleFilter (Invocation.connectServiceListener (some 1) "" "")
      (ctkPluginContext.create (some samplePlugin)) sampleFramework sampleFramework).2.1 rfl
      (by
        rintro (h | h)
        · cases h
        · cases h),
    ((failure_leaves_state_unchanged (ctkPluginFrameworkContext.collaborators sampleFilter)
      sampleFilter (Invocation.connectServiceListener (some 1) "" "")
      (ctkPluginContext.create (some samplePlugin)) sampleFramework sampleFramework).2.2
      rfl).1⟩

end CTK
